import Mathlib

set_option maxRecDepth 100000

/-!
Shallow embedding of the stm32g4xx-hal driver core: the FMAC
(filter math accelerator) driver from `src/fmac.rs`, the observation lock
from `src/observable.rs`, and the I2C fault handling from `src/i2c.rs`.

Register side effects are made explicit: configuration code is modelled as
a value of `Run`, which records the list of register writes performed and
whether a Rust `assert!` panicked (aborting the sequence with the writes
performed so far). Runtime I/O (`read` / `write`) is modelled as a pure
function of the relevant status-register state together with the list of
register accesses it performs.
-/

/-- An `I1F15` fixed-point sample, represented by the signed integer value
of its 16-bit two's-complement bit pattern (`to_bits()` as `i16`). -/
abbrev Sample := Int

/-- Rust `i16 as u16`: reinterpret the bit pattern, i.e. reduce mod 2^16. -/
def i16ToU16 (s : Int) : Nat := (s % 65536).toNat

/-- Rust `u16 as i16`: reinterpret the bit pattern as two's complement. -/
def u16ToI16 (n : Nat) : Int :=
  if n % 65536 < 32768 then (n % 65536 : Int) else (n % 65536 : Int) - 65536

/-- `Gain` from fmac.rs: the gain exponent R, `2^R`. -/
inductive Gain
  | x1
  | x2
  | x4
  | x8
  | x16
  | x32
  | x64
  | x128
deriving DecidableEq

/-- The discriminant of `Gain` (`r as u8`). -/
def Gain.val : Gain → Nat
  | .x1 => 0
  | .x2 => 1
  | .x4 => 2
  | .x8 => 3
  | .x16 => 4
  | .x32 => 5
  | .x64 => 6
  | .x128 => 7

/-- One register write performed by the configuration code.

`rccEnable` / `rccReset` are the RCC clock-domain writes done by
`FMAC::enable` / `FMAC::reset`; the rest are writes to FMAC registers.
Because the source uses `write` (not `modify`), fields not named in a
register write are reset to their zero reset values, so the `param`
constructor always carries all of P, Q, R, FUNC, START. -/
inductive RegWrite
  | rccEnable
  | rccReset
  | x1bufcfg (base size full_wm : Nat)
  | x2bufcfg (base size : Nat)
  | ybufcfg (base size empty_wm : Nat)
  | param (p q r func : Nat) (start : Bool)
  | wdata (v : Nat)
deriving DecidableEq

/-- Trace of register writes. -/
abbrev Trace := List RegWrite

/-- Outcome of running a piece of configuration code that can `assert!`:
`ok t` means it completed having performed the writes `t`; `panic t`
means an assert failed after the writes `t` were performed. -/
inductive Run
  | ok (t : Trace)
  | panic (t : Trace)
deriving DecidableEq

/-- Sequential composition: a panic aborts, keeping the writes so far. -/
def Run.seq : Run → Run → Run
  | .ok t, .ok t2 => .ok (t ++ t2)
  | .ok t, .panic t2 => .panic (t ++ t2)
  | .panic t, _ => .panic t

def Run.isOk : Run → Bool
  | .ok _ => true
  | .panic _ => false

/-- The writes performed, whether or not a panic followed them. -/
def Run.trace : Run → Trace
  | .ok t => t
  | .panic t => t

/-- fmac.rs `write_x1`: assert `x1.len() <= 255`, program X1BUFCFG
(base, size, watermark 0), issue the LoadX1 command (FUNC=1) with START
set via PARAM, then stream each sample to WDATA. The source's asserts
that `PARAM.START` reads clear are status-register reads, not writes, and
are assumed to pass (load commands self-clear); `as u8` casts are mod 256. -/
def write_x1 (x1 : List Sample) (base_addr : Nat) : Run :=
  if x1.length ≤ 255 then
    .ok ([.x1bufcfg base_addr (x1.length % 256) 0,
          .param (x1.length % 256) 0 0 1 true]
         ++ x1.map fun x => .wdata (i16ToU16 x))
  else .panic []

/-- fmac.rs `write_x2`: assert `b.len() <= 255 && a.len() <= 255 &&
b.len() + a.len() <= 256`, program X2BUFCFG, issue LoadX2 (FUNC=2,
P=len b, Q=len a) with START set, then stream `b` followed by `a`. -/
def write_x2 (b a : List Sample) (base_addr : Nat) : Run :=
  if b.length ≤ 255 ∧ a.length ≤ 255 ∧ b.length + a.length ≤ 256 then
    .ok ([.x2bufcfg base_addr ((b.length + a.length) % 256),
          .param (b.length % 256) (a.length % 256) 0 2 true]
         ++ (b.map fun x => .wdata (i16ToU16 x))
         ++ (a.map fun x => .wdata (i16ToU16 x)))
  else .panic []

/-- fmac.rs `write_y`: assert `y.len() <= 255`, program YBUFCFG, issue
LoadY (FUNC=3) with START set, then stream `y`. -/
def write_y (y : List Sample) (base_addr : Nat) : Run :=
  if y.length ≤ 255 then
    .ok ([.ybufcfg base_addr (y.length % 256) 0,
          .param (y.length % 256) 0 0 3 true]
         ++ y.map fun x => .wdata (i16ToU16 x))
  else .panic []

/-- fmac.rs `init_buffers`: X1 at base 0, X2 at `x1.len() as u8`, Y at
`x2_base + (b.len() + a.len()) as u8` (u8 arithmetic, hence the mod 256),
loading X1, then X2, then Y. -/
def init_buffers (x1 b a y : List Sample) : Run :=
  ((write_x1 x1 0).seq
    (write_x2 b a (x1.length % 256))).seq
    (write_y y ((x1.length % 256 + (b.length + a.length) % 256) % 256))

/-- fmac.rs `FmacExt::fir`: enable and reset the FMAC clock domain first,
then assert `initial_x1.len() == initial_x2.len()` and
`(2..=127).contains(&p)`, then `init_buffers` (with an empty A region),
then arm continuous FIR mode (FUNC=8) via PARAM. -/
def fir (initial_x1 initial_x2 initial_y : List Sample) (r : Gain) : Run :=
  (Run.ok [.rccEnable, .rccReset]).seq
    (if initial_x1.length = initial_x2.length then
      if 2 ≤ initial_x1.length ∧ initial_x1.length ≤ 127 then
        (init_buffers initial_x1 initial_x2 [] initial_y).seq
          (.ok [.param (initial_x1.length % 256) 0 r.val 8 true])
      else .panic []
    else .panic [])

/-- `IirConfig` from fmac.rs. -/
structure IirConfig where
  initial_x1 : List Sample
  initial_b : List Sample
  initial_a : List Sample
  initial_y : List Sample
  r : Gain

/-- The asserts of `IirConfig::new` before the final capacity assert
(fmac.rs lines 421-431), in source order. -/
def iirPriorAsserts (x1 b a y : List Sample) : Prop :=
  x1.length ≤ 255 ∧ b.length + a.length ≤ 255 ∧ y.length ≤ 255 ∧
  (2 ≤ b.length ∧ b.length ≤ 64) ∧
  (1 ≤ a.length ∧ a.length ≤ b.length - 1) ∧
  b.length = x1.length ∧ a.length = y.length

/-- The final capacity assert of `IirConfig::new` (fmac.rs line 433). -/
def iirCapacityAssert (x1 b a y : List Sample) : Prop :=
  x1.length + b.length + a.length + y.length ≤ 256

instance (x1 b a y : List Sample) : Decidable (iirPriorAsserts x1 b a y) := by
  unfold iirPriorAsserts
  infer_instance

instance (x1 b a y : List Sample) : Decidable (iirCapacityAssert x1 b a y) := by
  unfold iirCapacityAssert
  infer_instance

/-- fmac.rs `IirConfig::new`: a pure `const fn`; it has no access to the
FMAC peripheral, so it performs no register writes. A failed assert is
modelled as `none`. -/
def IirConfig.new (x1 b a y : List Sample) (r : Gain) : Option IirConfig :=
  if iirPriorAsserts x1 b a y ∧ iirCapacityAssert x1 b a y then
    some ⟨x1, b, a, y, r⟩
  else none

/-- fmac.rs `FmacExt::iir`: enable and reset the FMAC clock domain, then
`init_buffers` with the validated config, then arm continuous IIR mode
(FUNC=9, P=len b, Q=len a) via PARAM. -/
def iir (cfg : IirConfig) : Run :=
  (Run.ok [.rccEnable, .rccReset]).seq
    ((init_buffers cfg.initial_x1 cfg.initial_b cfg.initial_a cfg.initial_y).seq
      (.ok [.param (cfg.initial_b.length % 256) (cfg.initial_a.length % 256)
              cfg.r.val 9 true]))

/-- A list of n zero samples, used for concrete instantiations. -/
def zeros (n : Nat) : List Sample := List.replicate n 0

/-- The FMAC state visible to the runtime I/O functions: the two status
flags read from SR, and the current content of the 16-bit RDATA register. -/
structure FmacState where
  x1full : Bool
  yempty : Bool
  rdata : Nat
deriving DecidableEq

/-- One register access performed by the runtime I/O functions. -/
inductive RegAccess
  | readSr
  | readRdata
  | writeWdata (v : Nat)
deriving DecidableEq

/-- `FmacError` from fmac.rs. -/
inductive FmacError
  | x1Full
deriving DecidableEq

/-- fmac.rs `read` (used by `Fir::read` and `Iir::read`): read SR; when
YEMPTY is set return `None`; otherwise read RDATA once and decode its
bits as an I1F15 sample (`as i16`). Never blocks, never errors (total,
with result type `Option`). -/
def fmacRead (st : FmacState) : Option Sample × List RegAccess :=
  if st.yempty then (none, [.readSr])
  else (some (u16ToI16 st.rdata), [.readSr, .readRdata])

/-- fmac.rs `write`: read SR; when X1FULL is set return the X1Full error
without touching WDATA; otherwise perform exactly one WDATA write of the
given 16-bit value. -/
def fmacWrite (st : FmacState) (value : Nat) : Except FmacError Unit × List RegAccess :=
  if st.x1full then (.error .x1Full, [.readSr])
  else (.ok (), [.readSr, .writeWdata value])

/-- fmac.rs `Fir::write` / `Iir::write`: encode the sample
(`value.to_bits() as u16`) and call `write`. -/
def firWrite (st : FmacState) (s : Sample) : Except FmacError Unit × List RegAccess :=
  fmacWrite st (i16ToU16 s)

/-- The values written to the WDATA register in an access list. -/
def wdataWrites (acc : List RegAccess) : List Nat :=
  acc.filterMap fun a =>
    match a with
    | .writeWdata v => some v
    | _ => none

/-- `ObservationToken<P>` from observable.rs: a zero-size capability
holding only a `PhantomData<P>`. -/
inductive ObservationToken (P : Type)
  | mk

/-- `Observed<P, OBSERVER_COUNT>` from observable.rs: exclusively owns the
peripheral. -/
structure Observed (P : Type) (N : Nat) where
  peripheral : P

/-- observable.rs `Observable::observe::<N>`: split the peripheral into an
`Observed` wrapper and an array of exactly N tokens (`core::array::from_fn`,
modelled as a function out of `Fin N`). -/
def observe (P : Type) (N : Nat) (p : P) :
    Observed P N × (Fin N → ObservationToken P) :=
  (⟨p⟩, fun _ => .mk)

/-- observable.rs `Observed::release`: consumes the wrapper together with
an array of exactly N tokens (the array length is part of the type, so a
wrong token count cannot type-check) and returns the wrapped peripheral. -/
def Observed.release {P : Type} {N : Nat} (o : Observed P N)
    (_tokens : Fin N → ObservationToken P) : P :=
  o.peripheral

/-- The operations defined on `Observed<P, N>` in observable.rs:
`release` (line 23) and the `AsRef`, `AsMut`, `Deref`, `DerefMut` impls
(lines 137-160). -/
inductive ObservedOp
  | release
  | asRef
  | asMut
  | deref
  | derefMut
deriving DecidableEq

/-- The kind of access to the wrapped peripheral an operation grants. -/
inductive AccessKind
  | sharedBorrow
  | exclusiveBorrow
  | owning
deriving DecidableEq

/-- The access each operation grants, read off its return type in
observable.rs: `release` returns `P` by value; `as_ref` and `deref`
return a shared borrow of `P`; `as_mut` and `deref_mut` return a mutable
borrow of `P`. -/
def ObservedOp.access : ObservedOp → AccessKind
  | .release => .owning
  | .asRef => .sharedBorrow
  | .asMut => .exclusiveBorrow
  | .deref => .sharedBorrow
  | .derefMut => .exclusiveBorrow

/-- The I2C ISR status bits consulted by the `busy_wait!` and
`flush_txdr!` macros in i2c.rs. -/
structure I2cIsr where
  berr : Bool
  arlo : Bool
  nackf : Bool
  txis : Bool
  txe : Bool
deriving DecidableEq

/-- `Error` from i2c.rs. -/
inductive I2cError
  | overrun
  | nack
  | pecError
  | busError
  | arbitrationLost
deriving DecidableEq

/-- One register write performed by the i2c.rs fault-handling macros. -/
inductive I2cAction
  | icrBerrcf
  | icrArlocf
  | icrStopcfNackcf
  | txdrWrite (v : Nat)
  | isrTxeSet
deriving DecidableEq

/-- i2c.rs `flush_txdr!`: when TXIS is pending write a dummy 0 to TXDR;
when TXE is set write 1 to ISR.TXE to flush. -/
def flushTxdr (isr : I2cIsr) : List I2cAction :=
  (if isr.txis then [.txdrWrite 0] else []) ++
  (if isr.txe then [.isrTxeSet] else [])

/-- Outcome of one iteration of i2c.rs `busy_wait!`. -/
inductive BusyWaitOutcome
  | done
  | fault (e : I2cError)
  | again
deriving DecidableEq

/-- One iteration of i2c.rs `busy_wait!`: read ISR; break when the awaited
flag is set; otherwise test BERR, ARLO, NACKF in that order, clearing the
corresponding ICR flag(s) and returning the typed error; NACK additionally
clears STOPF and runs `flush_txdr!`. With nothing set, loop again. -/
def busyWaitStep (flagSet : Bool) (isr : I2cIsr) :
    BusyWaitOutcome × List I2cAction :=
  if flagSet then (.done, [])
  else if isr.berr then (.fault .busError, [.icrBerrcf])
  else if isr.arlo then (.fault .arbitrationLost, [.icrArlocf])
  else if isr.nackf then (.fault .nack, .icrStopcfNackcf :: flushTxdr isr)
  else (.again, [])

/-- Does an action list include a transmit-state flush (a TXDR dummy
write or an ISR.TXE flush write)? -/
def hasFlush (acts : List I2cAction) : Bool :=
  acts.any fun a =>
    match a with
    | .txdrWrite _ => true
    | .isrTxeSet => true
    | _ => false

/-- Region/base pairs extracted from a trace in write order: region 1 is
X1BUFCFG, 2 is X2BUFCFG, 3 is YBUFCFG; the second component is the
programmed base address. -/
def regionBases (t : Trace) : List (Nat × Nat) :=
  t.filterMap fun w =>
    match w with
    | .x1bufcfg base _ _ => some (1, base)
    | .x2bufcfg base _ => some (2, base)
    | .ybufcfg base _ _ => some (3, base)
    | _ => none

/-- The FUNC codes of the PARAM writes in a trace, in order. -/
def loadFuncs (t : Trace) : List Nat :=
  t.filterMap fun w =>
    match w with
    | .param _ _ _ func _ => some func
    | _ => none

/-- Is a write a write to an FMAC register (as opposed to the RCC
clock-domain enable/reset writes)? -/
def isFmacWrite : RegWrite → Bool
  | .rccEnable => false
  | .rccReset => false
  | _ => true

theorem regionBases_append (s t : Trace) :
    regionBases (s ++ t) = regionBases s ++ regionBases t := by
  simp [regionBases]

theorem loadFuncs_append (s t : Trace) :
    loadFuncs (s ++ t) = loadFuncs s ++ loadFuncs t := by
  simp [loadFuncs]

theorem regionBases_wdata (l : List Sample) :
    regionBases (l.map fun x => RegWrite.wdata (i16ToU16 x)) = [] := by
  simp [regionBases, List.filterMap_cons]

theorem loadFuncs_wdata (l : List Sample) :
    loadFuncs (l.map fun x => RegWrite.wdata (i16ToU16 x)) = [] := by
  simp [loadFuncs, List.filterMap_cons]

theorem regionBases_nil : regionBases [] = [] := rfl

theorem regionBases_cons_x1bufcfg (base size fwm : Nat) (t : Trace) :
    regionBases (.x1bufcfg base size fwm :: t) = (1, base) :: regionBases t := rfl

theorem regionBases_cons_x2bufcfg (base size : Nat) (t : Trace) :
    regionBases (.x2bufcfg base size :: t) = (2, base) :: regionBases t := rfl

theorem regionBases_cons_ybufcfg (base size ewm : Nat) (t : Trace) :
    regionBases (.ybufcfg base size ewm :: t) = (3, base) :: regionBases t := rfl

theorem regionBases_cons_param (p q r func : Nat) (st : Bool) (t : Trace) :
    regionBases (.param p q r func st :: t) = regionBases t := rfl

theorem loadFuncs_nil : loadFuncs [] = [] := rfl

theorem loadFuncs_cons_x1bufcfg (base size fwm : Nat) (t : Trace) :
    loadFuncs (.x1bufcfg base size fwm :: t) = loadFuncs t := rfl

theorem loadFuncs_cons_x2bufcfg (base size : Nat) (t : Trace) :
    loadFuncs (.x2bufcfg base size :: t) = loadFuncs t := rfl

theorem loadFuncs_cons_ybufcfg (base size ewm : Nat) (t : Trace) :
    loadFuncs (.ybufcfg base size ewm :: t) = loadFuncs t := rfl

theorem loadFuncs_cons_param (p q r func : Nat) (st : Bool) (t : Trace) :
    loadFuncs (.param p q r func st :: t) = func :: loadFuncs t := rfl

theorem iirConfig_new_some (x1 b a y : List Sample) (r : Gain)
    (h : (IirConfig.new x1 b a y r).isSome = true) :
    iirPriorAsserts x1 b a y ∧ iirCapacityAssert x1 b a y := by
  by_cases hc : iirPriorAsserts x1 b a y ∧ iirCapacityAssert x1 b a y
  · exact hc
  · simp [IirConfig.new, hc] at h

theorem fir_ok_dims (x1 x2 y : List Sample) (r : Gain)
    (h : (fir x1 x2 y r).isOk = true) :
    x1.length = x2.length ∧ 2 ≤ x1.length ∧ x1.length ≤ 127 := by
  by_cases h1 : x1.length = x2.length
  · by_cases h2 : 2 ≤ x1.length ∧ x1.length ≤ 127
    · exact ⟨h1, h2.1, h2.2⟩
    · rw [h1] at h2
      simp [fir, h1, h2, Run.seq, Run.isOk] at h
  · simp [fir, h1, Run.seq, Run.isOk] at h

/-- C1: `IirConfig::new` succeeds exactly when 2 ≤ len(B) ≤ 64,
1 ≤ len(A) ≤ len(B) − 1, len(B) + len(A) ≤ 255, len(X1) = len(B),
len(Y) = len(A) and len(X1) + len(B) + len(A) + len(Y) ≤ 256 (the
source's extra asserts len(X1) ≤ 255 and len(Y) ≤ 255 are implied); a
violated bound panics, and `IirConfig::new` is a pure `const fn` with no
access to the peripheral, so it performs zero register writes in every
case — in this embedding it is a pure function with no write trace. -/
theorem iirConfig_new_ok_iff (x1 b a y : List Sample) (r : Gain) :
    (IirConfig.new x1 b a y r).isSome = true ↔
      (2 ≤ b.length ∧ b.length ≤ 64 ∧
       1 ≤ a.length ∧ a.length ≤ b.length - 1 ∧
       b.length + a.length ≤ 255 ∧
       x1.length = b.length ∧ y.length = a.length ∧
       x1.length + b.length + a.length + y.length ≤ 256) := by
  unfold IirConfig.new
  split
  · rename_i hc
    unfold iirPriorAsserts iirCapacityAssert at hc
    simp only [Option.isSome_some, true_iff]
    omega
  · rename_i hc
    unfold iirPriorAsserts iirCapacityAssert at hc
    simp only [Option.isSome_none, Bool.false_eq_true, false_iff]
    omega

/-- C4: `observe` splits a peripheral into an `Observed` wrapper plus
exactly N tokens (the token array type is indexed by N), and `release`
applied to that wrapper with all N tokens returns the original
peripheral unchanged; `release` only type-checks against an array of
exactly N tokens, so a wrong token count is a type error. -/
theorem observe_release_roundtrip (P : Type) (N : Nat) (p : P) :
    ((observe P N p).1).release (observe P N p).2 = p := rfl

/-- C6: `write` fails with the X1Full error exactly when the X1FULL
status flag is set at the time of the call, and then performs no WDATA
write; on success it performs exactly one WDATA write of the encoded
(`to_bits() as u16`) sample. -/
theorem write_x1full_iff (ye : Bool) (rd : Nat) (s : Sample) :
    ((firWrite ⟨true, ye, rd⟩ s).1 = .error .x1Full ∧
      wdataWrites (firWrite ⟨true, ye, rd⟩ s).2 = []) ∧
    ((firWrite ⟨false, ye, rd⟩ s).1 = .ok () ∧
      wdataWrites (firWrite ⟨false, ye, rd⟩ s).2 = [i16ToU16 s]) := by
  simp [firWrite, fmacWrite, wdataWrites]

/-- C7: `read` returns `none` exactly when the YEMPTY status flag is
set, performing only the SR status read in that case; otherwise it
performs exactly one RDATA read and returns the register value decoded
as a 16-bit fixed-point sample. It is a total function into `Option`,
so it never blocks and never errors. -/
theorem read_yempty_iff (xf : Bool) (rd : Nat) :
    ((fmacRead ⟨xf, true, rd⟩).1 = none ∧
      (fmacRead ⟨xf, true, rd⟩).2 = [.readSr]) ∧
    ((fmacRead ⟨xf, false, rd⟩).1 = some (u16ToI16 rd) ∧
      (fmacRead ⟨xf, false, rd⟩).2 = [.readSr, .readRdata]) := by
  simp [fmacRead]

/-- C10: whenever the asserts of `IirConfig::new` prior to the final
capacity assert hold, the configuration is accepted, the total slot
count equals 2·(len(B)+len(A)) and is at most 254, and the final
capacity assert holds — so it is implied by the earlier bounds and can
never be the first check to fail. -/
theorem iir_capacity_implied (x1 b a y : List Sample) (r : Gain)
    (h : iirPriorAsserts x1 b a y) :
    iirCapacityAssert x1 b a y ∧
    (IirConfig.new x1 b a y r).isSome = true ∧
    x1.length + b.length + a.length + y.length
      = 2 * (b.length + a.length) ∧
    x1.length + b.length + a.length + y.length ≤ 254 := by
  have h' := h
  unfold iirPriorAsserts at h'
  have hcap : iirCapacityAssert x1 b a y := by
    unfold iirCapacityAssert
    omega
  refine ⟨hcap, ?_, by omega, by omega⟩
  simp [IirConfig.new, h, hcap]

/-- Witness for C10 at the concrete configuration
X1 = [0,0], B = [0,0], A = [0], Y = [0]. -/
theorem iir_capacity_implied_witness :
    iirCapacityAssert (zeros 2) (zeros 2) (zeros 1) (zeros 1) ∧
    (IirConfig.new (zeros 2) (zeros 2) (zeros 1) (zeros 1) Gain.x1).isSome
      = true ∧
    (zeros 2).length + (zeros 2).length + (zeros 1).length + (zeros 1).length
      = 2 * ((zeros 2).length + (zeros 1).length) ∧
    (zeros 2).length + (zeros 2).length + (zeros 1).length + (zeros 1).length
      ≤ 254 :=
  iir_capacity_implied (zeros 2) (zeros 2) (zeros 1) (zeros 1) Gain.x1
    (by decide)

/-- C2 counterexample: `FmacExt::fir` accepts X1 = X2 of length 2 with an
initial Y of length 253, yet N1 + N2 + N3 = 257 > 256: the driver places
no upper bound on len(Y) beyond the ≤ 255 load assert. -/
theorem fir_capacity_counterexample :
    (fir (zeros 2) (zeros 2) (zeros 253) Gain.x1).isOk = true ∧
    256 < (zeros 2).length + (zeros 2).length + (zeros 253).length := by
  constructor
  · rfl
  · decide

/-- C2 (amended): every configuration accepted through `IirConfig::new`
satisfies N1 + N2 + N3 ≤ 256, but `FmacExt::fir` does not bound len(Y),
so an accepted FIR configuration satisfies N1 + N2 + N3 ≤ 256 exactly
when len(Y) ≤ 256 − 2·len(X1). -/
theorem accepted_capacity (x1 b a y x1f x2f yf : List Sample) (r rf : Gain)
    (hiir : (IirConfig.new x1 b a y r).isSome = true)
    (hfir : (fir x1f x2f yf rf).isOk = true) :
    x1.length + (b.length + a.length) + y.length ≤ 256 ∧
    (x1f.length + x2f.length + yf.length ≤ 256 ↔
      yf.length ≤ 256 - 2 * x1f.length) := by
  obtain ⟨hp, hc⟩ := iirConfig_new_some x1 b a y r hiir
  obtain ⟨he, h2, h127⟩ := fir_ok_dims x1f x2f yf rf hfir
  unfold iirPriorAsserts at hp
  unfold iirCapacityAssert at hc
  exact ⟨by omega, by omega⟩

/-- Witness for the amended C2: an accepted IIR configuration with
lengths 2, 2, 1, 1 and an accepted FIR configuration with lengths
2, 2, 2. -/
theorem accepted_capacity_witness :
    (zeros 2).length + ((zeros 2).length + (zeros 1).length)
      + (zeros 1).length ≤ 256 ∧
    ((zeros 2).length + (zeros 2).length + (zeros 2).length ≤ 256 ↔
      (zeros 2).length ≤ 256 - 2 * (zeros 2).length) :=
  accepted_capacity (zeros 2) (zeros 2) (zeros 1) (zeros 1)
    (zeros 2) (zeros 2) (zeros 2) Gain.x1 Gain.x1 (by decide) (by rfl)

/-- C3 counterexample: `FmacExt::fir` with mismatched lengths
(len(X1) = 1 ≠ 2 = len(X2)) panics, but only after the RCC clock-domain
enable and reset writes have been performed — its write trace is not
empty, so validation does not happen before the clock-domain step. -/
theorem fir_validation_after_rcc :
    fir (zeros 1) (zeros 2) [] Gain.x1
      = .panic [.rccEnable, .rccReset] ∧
    (fir (zeros 1) (zeros 2) [] Gain.x1).trace ≠ [] := by
  decide

/-- C3 (amended): when `FmacExt::fir` is called with
len(X1) ≠ len(X2) or len(X1) outside 2..=127 it panics having performed
zero FMAC register writes — but only after the clock-domain enable and
reset writes, which precede validation. -/
theorem fir_invalid_no_fmac_writes (x1 x2 y : List Sample) (r : Gain)
    (h : ¬(x1.length = x2.length ∧ 2 ≤ x1.length ∧ x1.length ≤ 127)) :
    (fir x1 x2 y r).isOk = false ∧
    (fir x1 x2 y r).trace = [.rccEnable, .rccReset] ∧
    ((fir x1 x2 y r).trace.filter isFmacWrite) = [] := by
  by_cases h1 : x1.length = x2.length
  · have h2 : ¬(2 ≤ x1.length ∧ x1.length ≤ 127) := fun hx => h ⟨h1, hx⟩
    rw [h1] at h2
    simp [fir, h1, h2, Run.seq, Run.isOk, Run.trace, isFmacWrite]
  · simp [fir, h1, Run.seq, Run.isOk, Run.trace, isFmacWrite]

/-- Witness for the amended C3 at X1 = [0], X2 = [0, 0]. -/
theorem fir_invalid_no_fmac_writes_witness :
    (fir (zeros 1) (zeros 2) [] Gain.x2).isOk = false ∧
    (fir (zeros 1) (zeros 2) [] Gain.x2).trace
      = [.rccEnable, .rccReset] ∧
    ((fir (zeros 1) (zeros 2) [] Gain.x2).trace.filter isFmacWrite) = [] :=
  fir_invalid_no_fmac_writes (zeros 1) (zeros 2) [] Gain.x2 (by decide)

/-- C5 counterexample: the `AsMut` impl on `Observed` grants a mutable
borrow of the wrapped peripheral and is not `release`, so the peripheral
is not reachable only through shared-read accessors. -/
theorem observed_asMut_mutable :
    ObservedOp.access .asMut = .exclusiveBorrow ∧
    ObservedOp.asMut ≠ ObservedOp.release ∧
    ObservedOp.access .asMut ≠ .sharedBorrow := by
  decide

/-- C5 (amended): while an `Observed<P, N>` exists, the peripheral is
reachable only through borrowed accessors — shared (`AsRef`, `Deref`)
and mutable-borrow (`AsMut`, `DerefMut`) — and the only operation
granting owning access to P (as by-value reconfiguration APIs require)
is `release` with all N tokens. -/
theorem observed_owning_only_release (op : ObservedOp)
    (h : op.access = .owning) : op = .release := by
  revert h
  cases op <;> decide

/-- Witness for the amended C5 at the `release` operation. -/
theorem observed_owning_only_release_witness :
    ObservedOp.access .release = .owning ∧
    ObservedOp.release = ObservedOp.release :=
  ⟨by decide, observed_owning_only_release .release (by decide)⟩

/-- C8: under the bounds every accepted configuration satisfies, the
buffer regions are programmed with base(X1) = 0, base(X2) = len(X1),
base(Y) = len(X1) + len(B) + len(A), and are loaded in the order X1
(FUNC=1), X2 (FUNC=2), Y (FUNC=3). -/
theorem init_buffers_bases (x1 b a y : List Sample)
    (h1 : x1.length + b.length + a.length ≤ 255) (h2 : y.length ≤ 255) :
    ∃ t, init_buffers x1 b a y = .ok t ∧
      regionBases t = [(1, 0), (2, x1.length),
        (3, x1.length + b.length + a.length)] ∧
      loadFuncs t = [1, 2, 3] := by
  have hx1 : x1.length ≤ 255 := by omega
  have hcond : b.length ≤ 255 ∧ a.length ≤ 255 ∧ b.length + a.length ≤ 256 := by
    omega
  have e1 : x1.length % 256 = x1.length := Nat.mod_eq_of_lt (by omega)
  have e2 : (b.length + a.length) % 256 = b.length + a.length :=
    Nat.mod_eq_of_lt (by omega)
  have e3 : (x1.length + (b.length + a.length)) % 256
      = x1.length + (b.length + a.length) := Nat.mod_eq_of_lt (by omega)
  unfold init_buffers write_x1 write_x2 write_y
  rw [if_pos hx1, if_pos hcond, if_pos h2, e1, e2, e3]
  simp only [Run.seq]
  refine ⟨_, rfl, ?_, ?_⟩
  · simp [regionBases_append, regionBases_cons_x1bufcfg,
      regionBases_cons_x2bufcfg, regionBases_cons_ybufcfg,
      regionBases_cons_param, regionBases_nil, regionBases_wdata,
      Nat.add_assoc]
  · simp [loadFuncs_append, loadFuncs_cons_x1bufcfg, loadFuncs_cons_x2bufcfg,
      loadFuncs_cons_ybufcfg, loadFuncs_cons_param, loadFuncs_nil,
      loadFuncs_wdata]

/-- Witness for C8 at X1 = [0,0], B = [0,0], A = [0], Y = [0]. -/
theorem init_buffers_bases_witness :
    ∃ t, init_buffers (zeros 2) (zeros 2) (zeros 1) (zeros 1) = .ok t ∧
      regionBases t = [(1, 0), (2, (zeros 2).length),
        (3, (zeros 2).length + (zeros 2).length + (zeros 1).length)] ∧
      loadFuncs t = [1, 2, 3] :=
  init_buffers_bases (zeros 2) (zeros 2) (zeros 1) (zeros 1)
    (by decide) (by decide)

/-- C9 counterexample: on a bus error with a pending TXIS, `busy_wait!`
clears BERRCF and returns the BusError, but performs no transmit-state
flush — `flush_txdr!` runs only in the NACK branch. -/
theorem busy_wait_berr_no_flush :
    (busyWaitStep false ⟨true, false, false, true, false⟩).1
      = .fault .busError ∧
    hasFlush (busyWaitStep false ⟨true, false, false, true, false⟩).2
      = false ∧
    I2cIsr.txis ⟨true, false, false, true, false⟩ = true := by
  decide

/-- C9 (amended): when `busy_wait!` observes a bus-level fault while
the awaited flag is clear, it immediately returns the corresponding
typed error after clearing the fault flag(s) (BERR, ARLO, or — for
NACK — STOPF and NACKF together); pending transmit state is flushed
only in the NACK case. -/
theorem busy_wait_fault_handling (isr : I2cIsr) :
    (busyWaitStep false { isr with berr := true }).1 = .fault .busError ∧
    (busyWaitStep false { isr with berr := true }).2 = [.icrBerrcf] ∧
    (busyWaitStep false { isr with berr := false, arlo := true }).1
      = .fault .arbitrationLost ∧
    (busyWaitStep false { isr with berr := false, arlo := true }).2
      = [.icrArlocf] ∧
    (busyWaitStep false
        { isr with berr := false, arlo := false, nackf := true }).1
      = .fault .nack ∧
    (busyWaitStep false
        { isr with berr := false, arlo := false, nackf := true }).2
      = .icrStopcfNackcf :: flushTxdr isr ∧
    hasFlush (busyWaitStep false { isr with berr := true }).2 = false ∧
    hasFlush (busyWaitStep false { isr with berr := false, arlo := true }).2
      = false := by
  cases isr
  simp [busyWaitStep, flushTxdr, hasFlush]
